import Mathlib

/-!
Verification development for the `sa_academy_api` gateway
(`src/lib/index.js`): a shallow embedding of its query-string builder,
HTTP requester, schema composer, error normalizer, resolver sets and
token middleware, with theorems settling the specification claims.

JavaScript values that flow through the gateway (query parameters,
request bodies, GraphQL argument objects) are modelled by the dynamic
universe `JSVal`; JavaScript objects used as keyed argument maps are
modelled as association lists in insertion order (a `for..in` loop over
own enumerable properties visits string keys in insertion order here,
since no key is integer-like).  The outbound HTTP library
(`request-promise-native`) is modelled as an oracle:
a function from the built request object to either a resolved JSON
value or a thrown error value.
-/

namespace SAAcademy

/-- Dynamic universe for the JavaScript values the gateway manipulates. -/
inductive JSVal where
  | vstr : String → JSVal
  | vnum : Int → JSVal
  | vbool : Bool → JSVal
  | vnull : JSVal
  | vundefined : JSVal
  | varr : List JSVal → JSVal

mutual

/-- JavaScript string conversion `${v}` for the values of `JSVal`
(`Array.prototype.toString` joins elements with `","`). -/
def jsToString : JSVal → String
  | .vstr s => s
  | .vnum n => toString n
  | .vbool b => if b then "true" else "false"
  | .vnull => "null"
  | .vundefined => "undefined"
  | .varr xs => jsJoin "," xs

/-- JavaScript `Array.prototype.join sep` (a `null` or `undefined`
element stringifies to the empty string inside a join). -/
def jsJoin : String → List JSVal → String
  | _, [] => ""
  | sep, x :: rest =>
    let sx := match x with
      | .vnull => ""
      | .vundefined => ""
      | v => jsToString v
    match rest with
    | [] => sx
    | _ :: _ => sx ++ sep ++ jsJoin sep rest

end

/-- JavaScript truthiness on `JSVal` (an array object is always truthy). -/
def truthy : JSVal → Bool
  | .vstr s => s ≠ ""
  | .vnum n => n ≠ 0
  | .vbool b => b
  | .vnull => false
  | .vundefined => false
  | .varr _ => true

/-- Property read `obj[k]` on an object modelled as an association
list: the stored value, or `undefined` when the key is absent
(JavaScript destructuring of a missing property yields `undefined`). -/
def jsLookup (args : List (String × JSVal)) (k : String) : JSVal :=
  match args.find? (fun p => p.1 == k) with
  | some p => p.2
  | none => .vundefined

/-- The query segment one truthy parameter contributes in `addParams`:
`` `${param}=${parameters[param].join(`&${param}=`)}&` `` for an array
value, `` `${param}=${parameters[param]}&` `` otherwise. -/
def paramSegment (param : String) (v : JSVal) : String :=
  match v with
  | .varr xs => param ++ "=" ++ jsJoin ("&" ++ param ++ "=") xs ++ "&"
  | _ => param ++ "=" ++ jsToString v ++ "&"

/-- The `for..in` accumulation loop of `addParams` over the remaining
own properties, starting from the already built `queryUrl`. -/
def addParamsLoop (queryUrl : String) : List (String × JSVal) → String
  | [] => queryUrl
  | (param, v) :: rest =>
    if truthy v then addParamsLoop (queryUrl ++ paramSegment param v) rest
    else addParamsLoop queryUrl rest

/-- `addParams(url, parameters)` from `src/lib/index.js` lines 51-67:
starts from `` `${url}?` `` and appends one segment per truthy own
property.  The `parameters` argument is optional in practice
(`getRequest(url, '')` passes none); a `for..in` loop over `undefined`
iterates zero times, modelled by `Option`. -/
def addParams (url : String) (parameters : Option (List (String × JSVal))) : String :=
  addParamsLoop (url ++ "?") (parameters.getD [])

/-- Characters that JavaScript `encodeURI` leaves unescaped:
ASCII alphanumerics and `; , / ? : @ & = + $ - _ . ! ~ * ' ( ) #`. -/
def uriUnescaped (c : Char) : Bool :=
  c.isAlphanum ||
    c ∈ [';', ',', '/', '?', ':', '@', '&', '=', '+', '$', '-', '_', '.', '!',
      '~', '*', Char.ofNat 39, '(', ')', '#']

/-- UTF-8 byte sequence of one code point, as `encodeURI` escapes it. -/
def utf8Bytes (c : Char) : List Nat :=
  let n := c.toNat
  if n < 0x80 then [n]
  else if n < 0x800 then [0xC0 + n / 64, 0x80 + n % 64]
  else if n < 0x10000 then [0xE0 + n / 4096, 0x80 + (n / 64) % 64, 0x80 + n % 64]
  else [0xF0 + n / 262144, 0x80 + (n / 4096) % 64, 0x80 + (n / 64) % 64, 0x80 + n % 64]

/-- Upper-case hexadecimal digit for a value below 16. -/
def hexChar (n : Nat) : Char :=
  if n < 10 then Char.ofNat (48 + n) else Char.ofNat (55 + n)

/-- `%XX` percent-escape of one byte. -/
def percentByte (b : Nat) : String :=
  String.mk ['%', hexChar (b / 16), hexChar (b % 16)]

/-- JavaScript `encodeURI`: keeps unescaped characters, percent-escapes
the UTF-8 bytes of every other character. -/
def encodeURI (s : String) : String :=
  String.join (s.data.map (fun c =>
    if uriUnescaped c then String.mk [c]
    else String.join ((utf8Bytes c).map percentByte)))

/-- The `parameters` object `generalRequest` hands to the HTTP library:
`{ method, uri: encodeURI(url), body, json: true,
resolveWithFullResponse: fullResponse }`. -/
structure HttpRequest where
  method : String
  uri : String
  body : JSVal
  json : Bool
  resolveWithFullResponse : Bool

/-- Oracle for the outbound HTTP library (`request-promise-native`):
given the built request object, the awaited promise either resolves
with a JSON value (`Except.ok`) or rejects, i.e. throws at the `await`,
with an error value (`Except.error`). -/
def Transport : Type := HttpRequest → Except JSVal JSVal

/-- The request object `generalRequest` builds from its arguments
(`src/lib/index.js` lines 26-32). -/
def requestParameters (url method : String) (body : JSVal) (fullResponse : Bool) :
    HttpRequest :=
  { method := method
    uri := encodeURI url
    body := body
    json := true
    resolveWithFullResponse := fullResponse }

/-- Observable outcome of one `generalRequest` call: what was written
to the log (when the `SHOW_URLS` debug flag is set), the request object
given to the HTTP library, and the value the call returns. -/
structure RequestEffect where
  logged : Option String
  request : HttpRequest
  result : JSVal

/-- `generalRequest(url, method, body, fullResponse)` from
`src/lib/index.js` lines 25-43: builds the parameters object, logs the
raw `url` when `SHOW_URLS` is set, and awaits the HTTP call inside
`try { return await request(parameters); } catch (err) { return err; }`,
so a rejected promise is caught and its error value returned as the
result. -/
def generalRequest (t : Transport) (showUrls : Bool) (url method : String)
    (body : JSVal) (fullResponse : Bool) : RequestEffect :=
  let parameters := requestParameters url method body fullResponse
  let logged := if showUrls then some url else none
  let result := match t parameters with
    | .ok v => v
    | .error err => err
  { logged := logged, request := parameters, result := result }

/-- `getRequest(url, path, parameters)` from `src/lib/index.js` lines
76-79: builds `` addParams(`${url}/${path}`, parameters) `` and issues
a GET (no body, no full response). -/
def getRequest (t : Transport) (showUrls : Bool) (url path : String)
    (parameters : Option (List (String × JSVal))) : RequestEffect :=
  generalRequest t showUrls (addParams (url ++ "/" ++ path) parameters) "GET"
    .vundefined false

/-- `mergeSchemas(typeDefs, queries, mutations)` from `src/lib/index.js`
lines 88-92: the function declares exactly three parameters and splices
their joins into one template literal. -/
def mergeSchemas (typeDefs queries mutations : List String) : String :=
  String.intercalate "\n" typeDefs ++
    "\n    type Query \x7b " ++ String.intercalate "\n" queries ++
    " \x7d\n    type Mutation \x7b " ++ String.intercalate "\n" mutations ++
    " \x7d"

/-- `coursesTypeDef` template literal, lines 105-116. -/
def coursesTypeDef : String :=
  "\ntype Course \x7b\n    code: Int!\n    name: String!\n    credits: Int!\n    professor: String!\n\x7d\ninput CourseInput \x7b\n    name: String!\n    credits: Int!\n    professor: String!\n\x7d"

/-- `coursesQueries` template literal, lines 118-121. -/
def coursesQueries : String :=
  "\n    allCourses: [Course]!\n    courseByCode(code: Int!): Course!\n"

/-- `coursesMutations` template literal, lines 123-127. -/
def coursesMutations : String :=
  "\n    createCourse(course: CourseInput!): Course!\n    deleteCourse(code: Int!): Int\n    updateCourse(code: Int!, course: CourseInput!): Course!\n"

/-- `studentsTypeDef` template literal, lines 129-139. -/
def studentsTypeDef : String :=
  "\ntype Student \x7b\n    code: Int!\n    username: String!\n    password: String!\n\x7d\ninput StudentInput \x7b\n    username: String!\n    password: String!\n\x7d\n"

/-- `studentsQueries` template literal, lines 141-144. -/
def studentsQueries : String :=
  "\n    allStudents: [Student]!\n    studentByCode(code: Int!): Student!\n"

/-- `studentsMutations` template literal, lines 146-150. -/
def studentsMutations : String :=
  "\n    createStudent(student: StudentInput!): Student!\n    deleteStudent(code: Int!): Int\n    updateStudent(code: Int!, student: StudentInput!): Student!\n"

/-- First argument of the `mergeSchemas` call at line 199 (the courses
descriptor's type-definition fragments, scalar declaration included). -/
def coursesTypeDefsArg : List String := ["scalar JSON", coursesTypeDef]

/-- Fourth argument of the `mergeSchemas` call at line 199 (the
students descriptor's type-definition fragments, scalar declaration
included).  `mergeSchemas` declares only three parameters, so this
argument — like the fifth and sixth — is ignored by the callee. -/
def studentsTypeDefsArg : List String := ["scalar JSON", studentsTypeDef]

/-- `mergedTypeDefs` from `src/lib/index.js` lines 199-220.  The call
site passes six argument lists (courses typeDefs/queries/mutations,
then students typeDefs/queries/mutations), but `mergeSchemas` declares
three parameters, so JavaScript drops the students lists (arguments
four to six) on the call. -/
def mergedTypeDefs : String :=
  mergeSchemas coursesTypeDefsArg [coursesQueries] [coursesMutations]

/-- Environment configuration read at startup (`COURSES_URL`,
`COURSES_PORT`, `COURSES_ENTRY`, `STUDENTS_URL`, `STUDENTS_PORT`,
`STUDENTS_ENTRY`). -/
structure EnvConfig where
  coursesUrl : String
  coursesPort : String
  coursesEntry : String
  studentsUrl : String
  studentsPort : String
  studentsEntry : String

/-- `` URL = `http://${url}:${port}/${entryPoint}` `` for the courses
service (line 156). -/
def coursesURL (env : EnvConfig) : String :=
  "http://" ++ env.coursesUrl ++ ":" ++ env.coursesPort ++ "/" ++ env.coursesEntry

/-- `` URL$1 = `http://${url$1}:${port$1}/${entryPoint$1}` `` for the
students service (line 179). -/
def studentsURL (env : EnvConfig) : String :=
  "http://" ++ env.studentsUrl ++ ":" ++ env.studentsPort ++ "/" ++ env.studentsEntry

/-- Resolver `allCourses: (_) => getRequest(URL, '')` (line 160);
the `parameters` argument of `getRequest` is not passed, hence
`undefined`. -/
def allCourses (env : EnvConfig) (t : Transport) (showUrls : Bool) : RequestEffect :=
  getRequest t showUrls (coursesURL env) "" none

/-- Resolver `` courseByCode: (_, { code }) =>
generalRequest(`${URL}/${code}`, 'GET') `` (line 162). -/
def courseByCode (env : EnvConfig) (t : Transport) (showUrls : Bool)
    (args : List (String × JSVal)) : RequestEffect :=
  generalRequest t showUrls
    (coursesURL env ++ "/" ++ jsToString (jsLookup args "code")) "GET"
    .vundefined false

/-- Resolver `` createCourse: (_, { course }) =>
generalRequest(`${URL}`, 'POST', course) `` (line 166). -/
def createCourse (env : EnvConfig) (t : Transport) (showUrls : Bool)
    (args : List (String × JSVal)) : RequestEffect :=
  generalRequest t showUrls (coursesURL env) "POST" (jsLookup args "course") false

/-- Resolver `` updateCourse: (_, { code, course }) =>
generalRequest(`${URL}/${code}`, 'PUT', course) `` (line 168). -/
def updateCourse (env : EnvConfig) (t : Transport) (showUrls : Bool)
    (args : List (String × JSVal)) : RequestEffect :=
  generalRequest t showUrls
    (coursesURL env ++ "/" ++ jsToString (jsLookup args "code")) "PUT"
    (jsLookup args "course") false

/-- Resolver `` deleteCourse: (_, { code }) =>
generalRequest(`${URL}/${code}`, 'DELETE') `` (line 170). -/
def deleteCourse (env : EnvConfig) (t : Transport) (showUrls : Bool)
    (args : List (String × JSVal)) : RequestEffect :=
  generalRequest t showUrls
    (coursesURL env ++ "/" ++ jsToString (jsLookup args "code")) "DELETE"
    .vundefined false

/-- Resolver `allStudents: (_) => getRequest(URL$1, '')` (line 183). -/
def allStudents (env : EnvConfig) (t : Transport) (showUrls : Bool) : RequestEffect :=
  getRequest t showUrls (studentsURL env) "" none

/-- Resolver `` studentByCode: (_, { code }) =>
generalRequest(`${URL$1}/${code}`, 'GET') `` (line 185). -/
def studentByCode (env : EnvConfig) (t : Transport) (showUrls : Bool)
    (args : List (String × JSVal)) : RequestEffect :=
  generalRequest t showUrls
    (studentsURL env ++ "/" ++ jsToString (jsLookup args "code")) "GET"
    .vundefined false

/-- Resolver `` createStudent: (_, { course }) =>
generalRequest(`${URL$1}`, 'POST', course) `` (line 189).  Note the
destructured property is named `course`, although the schema declares
the argument as `student: StudentInput!`. -/
def createStudent (env : EnvConfig) (t : Transport) (showUrls : Bool)
    (args : List (String × JSVal)) : RequestEffect :=
  generalRequest t showUrls (studentsURL env) "POST" (jsLookup args "course") false

/-- Resolver `` updateStudent: (_, { code, course }) =>
generalRequest(`${URL$1}/${code}`, 'PUT', course) `` (line 191); again
the destructured payload property is `course`, not `student`. -/
def updateStudent (env : EnvConfig) (t : Transport) (showUrls : Bool)
    (args : List (String × JSVal)) : RequestEffect :=
  generalRequest t showUrls
    (studentsURL env ++ "/" ++ jsToString (jsLookup args "code")) "PUT"
    (jsLookup args "course") false

/-- Resolver `` deleteStudent: (_, { code }) =>
generalRequest(`${URL$1}/${code}`, 'DELETE') `` (line 193). -/
def deleteStudent (env : EnvConfig) (t : Transport) (showUrls : Bool)
    (args : List (String × JSVal)) : RequestEffect :=
  generalRequest t showUrls
    (studentsURL env ++ "/" ++ jsToString (jsLookup args "code")) "DELETE"
    .vundefined false

/-- Structured backend error envelope `{id, code, description}` nested
as the `error` property of an execution error's `originalError`. -/
structure NestedError where
  id : String
  code : Int
  description : String

/-- The `originalError` wrapper an execution error may carry; its
`error` property is absent (or falsy) when the failure was not a
structured backend error. -/
structure OrigError where
  error : Option NestedError

/-- The execution engine's default formatting of an error
(`graphql.formatError`): at least a message and the failing field
path. -/
structure FormattedError where
  message : String
  path : List String

/-- An execution error as `formatErr` receives it: the engine-provided
error value, carrying an optional `originalError`. -/
structure ExecError where
  originalError : Option OrigError

/-- The two shapes `formatErr` can return: the custom
`{ message, code, description, path }` object, or the engine's default
formatting untouched. -/
inductive ErrOutput where
  | custom : String → Int → String → List String → ErrOutput
  | defaultFmt : FormattedError → ErrOutput

/-- The guard `originalError && originalError.error` of `formatErr`. -/
def origErrorGuard : Option OrigError → Bool
  | none => false
  | some oe => oe.error.isSome

/-- The destructuring
`const { error: { id: message, code, description } } = originalError`:
destructuring a property of `undefined` throws a `TypeError`, modelled
as `Except.error`. -/
def destructureNested : Option OrigError → Except String (String × Int × String)
  | none => .error "TypeError: cannot destructure"
  | some oe =>
    match oe.error with
    | none => .error "TypeError: cannot destructure"
    | some ne => .ok (ne.id, ne.code, ne.description)

/-- `formatErr(error)` from `src/lib/index.js` lines 94-103,
parameterized by the engine's `graphql.formatError` (`fmt`): computes
the default formatting, and when the guard holds returns
`{ message: id, code, description, path }`, otherwise the default
formatting.  The return type records whether a `TypeError` could
escape the destructuring. -/
def formatErr (fmt : ExecError → FormattedError) (e : ExecError) :
    Except String ErrOutput :=
  let data := fmt e
  if origErrorGuard e.originalError then
    (destructureNested e.originalError).map
      (fun x => .custom x.1 x.2.1 x.2.2 data.path)
  else
    .ok (.defaultFmt data)

/-- ASCII alphanumeric test, the character class `[A-Za-z0-9]`. -/
def isAlnumAscii (c : Char) : Bool :=
  ('A' ≤ c && c ≤ 'Z') || ('a' ≤ c && c ≤ 'z') || ('0' ≤ c && c ≤ '9')

/-- Whether `pat` occurs at the head of `cs`. -/
def beginsWith : List Char → List Char → Bool
  | [], _ => true
  | _ :: _, [] => false
  | p :: ps, c :: cs => p == c && beginsWith ps cs

/-- Number of (possibly overlapping) occurrences of `pat` in `cs`. -/
def countOccs (pat : List Char) : List Char → Nat
  | [] => 0
  | c :: cs => (if beginsWith pat (c :: cs) then 1 else 0) + countOccs pat cs

/-- One attempt of the regex `/Bearer ([A-Za-z0-9]+)/` at the current
position: the literal `Bearer ` must match here, followed by at least
one `[A-Za-z0-9]` character; the greedy `+` captures the maximal
alphanumeric run. -/
def bearerHere (cs : List Char) : Option (List Char) :=
  if beginsWith "Bearer ".data cs then
    let tok := (cs.drop 7).takeWhile isAlnumAscii
    if tok.isEmpty then none else some tok
  else none

/-- Left-to-right regex search of `/Bearer ([A-Za-z0-9]+)/`: the
leftmost position where the whole pattern matches wins (`String.match`
with a non-global regex). -/
def bearerScan : List Char → Option (List Char)
  | [] => none
  | c :: cs =>
    match bearerHere (c :: cs) with
    | some tok => some tok
    | none => bearerScan cs

/-- The token middleware, `src/lib/index.js` lines 240-248, combined
with the context construction `context: { token: ctx.state.token }` at
line 253: when the `Authorization` header is present and truthy and
`/Bearer ([A-Za-z0-9]+)/` matches with a non-empty capture, the capture
becomes `ctx.state.token`; otherwise `ctx.state.token` stays
`undefined` (`none`). -/
def tokenMiddleware (authorization : Option String) : Option String :=
  match authorization with
  | none => none
  | some h =>
    if h = "" then none
    else (bearerScan h.data).map (fun tok => String.mk tok)

/-- Last character of a string, if any. -/
def lastChar (s : String) : Option Char := s.data.getLast?

theorem lastChar_append_char (s : String) (c : Char) :
    lastChar (s ++ String.mk [c]) = some c := by
  show ((s ++ String.mk [c]).data).getLast? = some c
  rw [String.data_append]
  exact List.getLast?_concat _

theorem lastChar_paramSegment (q p : String) (v : JSVal) :
    lastChar (q ++ paramSegment p v) = some '&' := by
  obtain ⟨w, hw⟩ : ∃ w, paramSegment p v = w ++ "&" := by
    cases v <;> exact ⟨_, rfl⟩
  rw [hw]
  show ((q ++ (w ++ "&")).data).getLast? = some '&'
  rw [String.data_append, String.data_append, ← List.append_assoc]
  exact List.getLast?_concat _

theorem addParamsLoop_ends (l : List (String × JSVal)) :
    ∀ q : String, (lastChar q = some '?' ∨ lastChar q = some '&') →
      lastChar (addParamsLoop q l) = some '?' ∨
        lastChar (addParamsLoop q l) = some '&' := by
  induction l with
  | nil => intro q h; exact h
  | cons pv rest ih =>
    intro q h
    obtain ⟨p, v⟩ := pv
    by_cases hv : truthy v
    · simp only [addParamsLoop, if_pos hv]
      exact ih _ (Or.inr (lastChar_paramSegment q p v))
    · simp only [addParamsLoop, if_neg hv]
      exact ih q h

set_option maxRecDepth 400000

/-- Claim C1: the composed schema's query and mutation field sets were
claimed to contain exactly the fields declared by both descriptors
(`allCourses`, `courseByCode`, `allStudents`, `studentByCode`;
`createCourse`, `updateCourse`, `deleteCourse`, `createStudent`,
`updateStudent`, `deleteStudent`).  In the code, `mergeSchemas`
declares three parameters while the call site passes six argument
lists, so the students fragments are dropped: every students field
name occurs in the students descriptor's fragments but has zero
occurrences in `mergedTypeDefs`, while the courses fields are present.
Re-deriving the field lists from the composed text therefore cannot
reproduce the union of the descriptors' field name sets. -/
theorem claim1_composed_schema_drops_student_fields :
    countOccs "allStudents".data studentsQueries.data = 1 ∧
    countOccs "studentByCode".data studentsQueries.data = 1 ∧
    countOccs "createStudent".data studentsMutations.data = 1 ∧
    countOccs "updateStudent".data studentsMutations.data = 1 ∧
    countOccs "deleteStudent".data studentsMutations.data = 1 ∧
    countOccs "allCourses".data mergedTypeDefs.data = 1 ∧
    countOccs "courseByCode".data mergedTypeDefs.data = 1 ∧
    countOccs "createCourse".data mergedTypeDefs.data = 1 ∧
    countOccs "updateCourse".data mergedTypeDefs.data = 1 ∧
    countOccs "deleteCourse".data mergedTypeDefs.data = 1 ∧
    countOccs "allStudents".data mergedTypeDefs.data = 0 ∧
    countOccs "studentByCode".data mergedTypeDefs.data = 0 ∧
    countOccs "createStudent".data mergedTypeDefs.data = 0 ∧
    countOccs "updateStudent".data mergedTypeDefs.data = 0 ∧
    countOccs "deleteStudent".data mergedTypeDefs.data = 0 := by
  decide

/-- Claim C2: the payload argument named in the schema field definition
was claimed to be passed unmodified as the HTTP body for every create
and update resolver.  That holds for the courses resolvers (first two
conjuncts), but the students resolvers destructure the property
`course` while the schema names the argument `student`, so
`createStudent` invoked with `{student: s}` and `updateStudent` invoked
with `{code: k, student: s}` send body `undefined`, not `s` (last two
conjuncts). -/
theorem claim2_student_payload_dropped :
    (∀ (env : EnvConfig) (t : Transport) (su : Bool) (c : JSVal),
      (createCourse env t su [("course", c)]).request.body = c) ∧
    (∀ (env : EnvConfig) (t : Transport) (su : Bool) (k c : JSVal),
      (updateCourse env t su [("code", k), ("course", c)]).request.body = c) ∧
    (∀ (env : EnvConfig) (t : Transport) (su : Bool) (s : JSVal),
      (createStudent env t su [("student", s)]).request.body = JSVal.vundefined) ∧
    (∀ (env : EnvConfig) (t : Transport) (su : Bool) (k s : JSVal),
      (updateStudent env t su [("code", k), ("student", s)]).request.body
        = JSVal.vundefined) := by
  refine ⟨?_, ?_, ?_, ?_⟩ <;> intros <;> rfl

/-- Claim C3: `generalRequest` never propagates a fault to its caller:
when the awaited HTTP call rejects with error value `e`, the `catch`
returns `e` as the call's result value, and when it resolves with `v`,
the result is `v`; in both cases the call returns normally. -/
theorem claim3_generalRequest_never_throws
    (t : Transport) (su : Bool) (url method : String) (body : JSVal) (fr : Bool) :
    (∀ e, t (requestParameters url method body fr) = .error e →
      (generalRequest t su url method body fr).result = e) ∧
    (∀ v, t (requestParameters url method body fr) = .ok v →
      (generalRequest t su url method body fr).result = v) := by
  constructor <;> intro x hx <;> simp [generalRequest, hx]

/-- Witness for C3: a transport that always rejects with
`"ECONNREFUSED"` yields that error value as the result of the call. -/
theorem claim3_witness :
    (generalRequest (fun _ => Except.error (JSVal.vstr "ECONNREFUSED")) false
      "http://backend:80/courses" "GET" JSVal.vundefined false).result =
      JSVal.vstr "ECONNREFUSED" :=
  (claim3_generalRequest_never_throws
    (fun _ => Except.error (JSVal.vstr "ECONNREFUSED")) false
    "http://backend:80/courses" "GET" JSVal.vundefined false).1 _ rfl

/-- Claim C6: the merged schema text produced at startup declares
`scalar JSON` exactly once, although both the courses and the students
descriptor's type-definition argument lists include the declaration
(the students list is dropped by the three-parameter `mergeSchemas`). -/
theorem claim6_scalar_json_declared_once :
    "scalar JSON" ∈ coursesTypeDefsArg ∧
    "scalar JSON" ∈ studentsTypeDefsArg ∧
    countOccs "scalar JSON".data mergedTypeDefs.data = 1 := by
  refine ⟨by decide, by decide, by decide⟩

/-- Claim C4: `addParams` includes a parameter only if its value is
truthy, expands an array value into repeated `key=value` segments in
array order, and always yields a URL ending in `?` or `&`:
`addParams(url, {})` is `url?`, and
`addParams(url, {a:["x","y"], b:0, c:null, d:"z"})` is
`url?a=x&a=y&d=z&`. -/
theorem claim4_addParams_query_building :
    (∀ url, addParams url (some []) = url ++ "?") ∧
    (∀ url, addParams url
        (some [("a", .varr [.vstr "x", .vstr "y"]), ("b", .vnum 0),
          ("c", .vnull), ("d", .vstr "z")]) = url ++ "?a=x&a=y&d=z&") ∧
    (∀ url params, lastChar (addParams url params) = some '?' ∨
      lastChar (addParams url params) = some '&') := by
  refine ⟨fun url => rfl, fun url => ?_, fun url params => ?_⟩
  · apply String.ext
    simp [addParams, addParamsLoop, paramSegment, truthy, jsJoin, jsToString,
      String.data_append]
  · exact addParamsLoop_ends _ _ (Or.inl (lastChar_append_char url '?'))

/-- Claim C5: when the execution error carries an `originalError` with
a truthy nested `error` object `{id, code, description}`, `formatErr`
returns `{message: id, code, description, path}` with `path` from the
engine's default formatting; otherwise it returns the default
formatting unchanged. -/
theorem claim5_formatErr_routing :
    (∀ (fmt : ExecError → FormattedError) (e : ExecError)
        (oe : OrigError) (ne : NestedError),
      e.originalError = some oe → oe.error = some ne →
      formatErr fmt e =
        .ok (.custom ne.id ne.code ne.description (fmt e).path)) ∧
    (∀ (fmt : ExecError → FormattedError) (e : ExecError),
      (e.originalError = none ∨
        ∃ oe, e.originalError = some oe ∧ oe.error = none) →
      formatErr fmt e = .ok (.defaultFmt (fmt e))) := by
  constructor
  · intro fmt e oe ne h1 h2
    simp [formatErr, origErrorGuard, destructureNested, h1, h2, Except.map]
  · intro fmt e h
    rcases h with h | ⟨oe, h1, h2⟩
    · simp [formatErr, origErrorGuard, h]
    · simp [formatErr, origErrorGuard, h1, h2]

/-- Witness for C5: a structured backend error
`{error: {id: "E1", code: 404, description: "not found"}}` normalizes
to `{message: "E1", code: 404, description: "not found", path}` with
the default-formatted path. -/
theorem claim5_witness :
    formatErr (fun _ => ⟨"boom", ["allCourses"]⟩)
      ⟨some ⟨some ⟨"E1", 404, "not found"⟩⟩⟩ =
      .ok (.custom "E1" 404 "not found" ["allCourses"]) :=
  claim5_formatErr_routing.1 _ _
    ⟨some ⟨"E1", 404, "not found"⟩⟩ ⟨"E1", 404, "not found"⟩ rfl rfl

/-- Claim C7: `formatErr` is a total synchronous function: for every
execution error and every engine formatter it returns a value and the
guarded destructuring can never raise a `TypeError`. -/
theorem claim7_formatErr_total
    (fmt : ExecError → FormattedError) (e : ExecError) :
    ∃ r, formatErr fmt e = Except.ok r := by
  rcases h : e.originalError with _ | oe
  · exact ⟨.defaultFmt (fmt e), by simp [formatErr, origErrorGuard, h]⟩
  · rcases h2 : oe.error with _ | ne
    · exact ⟨.defaultFmt (fmt e), by simp [formatErr, origErrorGuard, h, h2]⟩
    · exact ⟨.custom ne.id ne.code ne.description (fmt e).path,
        by simp [formatErr, origErrorGuard, destructureNested, h, h2, Except.map]⟩

/-- Counterexample to claim C8 as stated: with the debug flag set, the
URL written to the log is the raw `url` argument, which differs from
the percent-encoded URL the outbound request uses whenever `encodeURI`
alters it — here at `url = "http://h/a b"` the log shows
`http://h/a b` while the request uses `http://h/a%20b`. -/
theorem claim8_counterexample :
    (generalRequest (fun _ => Except.ok JSVal.vnull) true "http://h/a b" "GET"
      JSVal.vundefined false).logged ≠
      some (encodeURI "http://h/a b") := by
  decide

/-- Claim C8 (amended): with the debug flag set, the logged URL is the
raw `url` argument exactly as passed to `generalRequest`, while the
outbound request uses `encodeURI(url)`; the two coincide only when
`encodeURI` leaves the url unchanged. -/
theorem claim8_logs_raw_url
    (t : Transport) (url method : String) (body : JSVal) (fr : Bool) :
    (generalRequest t true url method body fr).logged = some url ∧
    (generalRequest t true url method body fr).request.uri = encodeURI url :=
  ⟨rfl, rfl⟩

/-- Claim C9: `addParams` with an absent (`undefined`) parameters
mapping iterates zero times and yields the base path followed by `?`;
consequently `allCourses` (and likewise `allStudents`), which calls
`getRequest(URL, '')` with no parameters argument, issues a GET to
`{baseUrl}/?`. -/
theorem claim9_absent_params :
    (∀ url, addParams url none = url ++ "?") ∧
    (∀ (env : EnvConfig) (t : Transport) (su : Bool),
      allCourses env t su =
        generalRequest t su (coursesURL env ++ "/?") "GET" JSVal.vundefined false) ∧
    (∀ (env : EnvConfig) (t : Transport) (su : Bool),
      allStudents env t su =
        generalRequest t su (studentsURL env ++ "/?") "GET" JSVal.vundefined false) := by
  refine ⟨fun url => rfl, fun env t su => ?_, fun env t su => ?_⟩
  · have h : addParams (coursesURL env ++ "/" ++ "") none = coursesURL env ++ "/?" := by
      apply String.ext
      simp [addParams, addParamsLoop, String.data_append]
    simp only [allCourses, getRequest]
    rw [h]
  · have h : addParams (studentsURL env ++ "/" ++ "") none = studentsURL env ++ "/?" := by
      apply String.ext
      simp [addParams, addParamsLoop, String.data_append]
    simp only [allStudents, getRequest]
    rw [h]

theorem takeWhile_all_append (p : Char → Bool) (t r : List Char)
    (hall : ∀ c ∈ t, p c = true)
    (hr : ∀ c, r.head? = some c → p c = false) :
    (t ++ r).takeWhile p = t := by
  induction t with
  | nil =>
    simp only [List.nil_append]
    cases r with
    | nil => rfl
    | cons c cs => simp [List.takeWhile_cons, hr c rfl]
  | cons c cs ih =>
    simp only [List.cons_append, List.takeWhile_cons, hall c (by simp),
      if_true]
    rw [ih (fun x hx => hall x (by simp [hx]))]

theorem bearerScan_of_here (c : Char) (cs tok : List Char)
    (h : bearerHere (c :: cs) = some tok) :
    bearerScan (c :: cs) = some tok := by
  simp [bearerScan, h]

/-- Claim C10: the middleware stores in context as `token` only the
first maximal run of ASCII alphanumerics following `Bearer ` in the
`Authorization` header: a header `Bearer ` followed by a non-empty
alphanumeric run then anything non-alphanumeric yields exactly that
run (so a JWT like `Bearer abc.def` is truncated to `abc`), and an
absent, empty or non-matching header leaves the context token
`undefined`. -/
theorem claim10_token_extraction :
    (∀ (t r : List Char), t ≠ [] → (∀ c ∈ t, isAlnumAscii c = true) →
      (∀ c, r.head? = some c → isAlnumAscii c = false) →
      tokenMiddleware (some (String.mk ("Bearer ".data ++ (t ++ r)))) =
        some (String.mk t)) ∧
    tokenMiddleware (some "Bearer abc.def") = some "abc" ∧
    tokenMiddleware none = none ∧
    tokenMiddleware (some "Token abc123") = none ∧
    tokenMiddleware (some "") = none := by
  refine ⟨?_, rfl, rfl, rfl, rfl⟩
  intro t r ht hall hr
  have htw : (t ++ r).takeWhile isAlnumAscii = t :=
    takeWhile_all_append isAlnumAscii t r hall hr
  have hempty : t.isEmpty = false := by
    cases t with
    | nil => exact absurd rfl ht
    | cons a as => rfl
  have h0 : bearerHere ("Bearer ".data ++ (t ++ r)) = some t := by
    unfold bearerHere
    rw [show beginsWith "Bearer ".data ("Bearer ".data ++ (t ++ r)) = true from rfl]
    rw [show ("Bearer ".data ++ (t ++ r)).drop 7 = t ++ r from rfl, htw]
    simp [hempty]
  have hscan : bearerScan ("Bearer ".data ++ (t ++ r)) = some t :=
    bearerScan_of_here 'B' ("earer ".data ++ (t ++ r)) t h0
  show tokenMiddleware _ = _
  simp only [tokenMiddleware]
  rw [if_neg ?hne]
  case hne =>
    intro heq
    have : "Bearer ".data ++ (t ++ r) = [] := congrArg String.data heq
    simp at this
  show (bearerScan ("Bearer ".data ++ (t ++ r))).map (fun tok => String.mk tok) = _
  rw [hscan]
  rfl

/-- Witness for C10: the JWT-shaped header `Bearer abc123.def` stores
the truncated token `abc123`. -/
theorem claim10_witness :
    tokenMiddleware
      (some (String.mk ("Bearer ".data ++ ("abc123".data ++ ".def".data)))) =
      some (String.mk "abc123".data) :=
  claim10_token_extraction.1 "abc123".data ".def".data (by decide) (by decide)
    (by decide)

end SAAcademy
